import Mathlib

/-!
Shallow embedding of the SmartPlate frontend:
  * the authentication context (`AuthProvider` with `setAuth`, `logout` and the
    profile-fetch effect `fetchUser`),
  * the combined sign-in / sign-up page (`handleSignIn`, `handleSignUp`),
  * the Leaflet map wrapper (`MapComponent`'s marker-update effect).
JavaScript nullable values are modelled with `Option`, `localStorage` as a
function from keys to optional string values, and the asynchronous network
calls by passing the response (success or error) as an explicit argument.
-/

namespace SmartPlate

/-- The user object returned by the backend; the code only ever reads its
`role` field (for the post-login redirect). -/
structure User where
  role : String
deriving DecidableEq, Repr

/-- `localStorage`: a map from string keys to optional string values. -/
abbrev Storage := String → Option String

/-- The single persistent-storage key used by the auth context. -/
def tokenKey : String := "smartplate_token"

/-- `localStorage.getItem`. -/
def getItem (σ : Storage) (k : String) : Option String := σ k

/-- `localStorage.setItem` (the stored value is always a string). -/
def setItem (σ : Storage) (k : String) (v : String) : Storage :=
  fun q => if q = k then some v else σ q

/-- `localStorage.removeItem`. -/
def removeItem (σ : Storage) (k : String) : Storage :=
  fun q => if q = k then none else σ q

/-- JavaScript string coercion applied by `localStorage.setItem` to a
nullable argument: `String(null) = "null"`. -/
def jsString : Option String → String
  | none => "null"
  | some s => s

/-- The in-memory session state of `AuthProvider`: `user`, `token`,
`loading`. -/
structure AuthState where
  user : Option User
  token : Option String
  loading : Bool
deriving DecidableEq, Repr

/-- State after the initial render of `AuthProvider`: `user` starts at
`null`, `token` is read from `localStorage.getItem('smartplate_token')`,
`loading` starts `true`. -/
def initState (σ : Storage) : AuthState :=
  { user := none, token := getItem σ tokenKey, loading := true }

/-- `setAuth(newToken, newUser)`: writes the token to storage (under JS
string coercion) and replaces both in-memory fields. -/
def setAuth (s : AuthState) (σ : Storage) (newToken : Option String)
    (newUser : Option User) : AuthState × Storage :=
  ({ s with token := newToken, user := newUser },
   setItem σ tokenKey (jsString newToken))

/-- `logout()`: removes the stored token and clears both in-memory fields. -/
def logout (s : AuthState) (σ : Storage) : AuthState × Storage :=
  ({ s with token := none, user := none }, removeItem σ tokenKey)

/-- `API`: the backend base URL with `/api` appended. -/
def API (backendUrl : String) : String := backendUrl ++ "/api"

/-- A GET request as issued by the profile-fetch effect. -/
structure Request where
  url : String
  authHeader : Option String
deriving DecidableEq, Repr

/-- A `toast` notification from the `sonner` library. -/
inductive Toast where
  | error (msg : String)
  | success (msg : String)
deriving DecidableEq, Repr

/-- Outcome of the awaited `GET /api/auth/me` call: the response body on
success, or a thrown error. -/
inductive FetchResult where
  | success (u : User)
  | failure
deriving DecidableEq, Repr

/-- Everything the profile-fetch effect produces: the next session state,
the next storage, the requests it issued and the notifications it showed. -/
structure EffectOut where
  state : AuthState
  storage : Storage
  requests : List Request
  toasts : List Toast

/-- The `fetchUser` effect body, run whenever `token` changes.  `!token` is
JS truthiness: both `null` and the empty string skip the fetch.  On a
successful fetch the user is set to the response body; on a thrown error
the stored token is removed and both fields are nulled; `loading` is set to
`false` in the `finally` block of every path. -/
def fetchUserEffect (b : String) (s : AuthState) (σ : Storage)
    (res : FetchResult) : EffectOut :=
  match s.token with
  | none => { state := { s with loading := false }, storage := σ, requests := [], toasts := [] }
  | some t =>
    if t = "" then
      { state := { s with loading := false }, storage := σ, requests := [], toasts := [] }
    else
      let req : Request :=
        { url := API b ++ "/auth/me", authHeader := some ("Bearer " ++ t) }
      match res with
      | FetchResult.success u =>
        { state := { s with user := some u, loading := false },
          storage := σ, requests := [req], toasts := [] }
      | FetchResult.failure =>
        { state := { s with user := none, token := none, loading := false },
          storage := removeItem σ tokenKey, requests := [req], toasts := [] }

/-- The public auth operations through which session states are reached
after the initial load. -/
inductive Op where
  | setAuth (t : Option String) (u : Option User)
  | logout
  | effect (res : FetchResult)
deriving DecidableEq, Repr

/-- Apply one auth operation to a session/storage pair. -/
def applyOp (b : String) : AuthState × Storage → Op → AuthState × Storage
  | (s, σ), Op.setAuth t u => setAuth s σ t u
  | (s, σ), Op.logout => logout s σ
  | (s, σ), Op.effect r =>
    let out := fetchUserEffect b s σ r
    (out.state, out.storage)

/-- Run a sequence of auth operations from the initial load out of
storage `σ₀`. -/
def runOps (b : String) (σ₀ : Storage) (ops : List Op) : AuthState × Storage :=
  ops.foldl (applyOp b) (initState σ₀, σ₀)

/-- The spec's session invariant: token absent implies user absent. -/
def tokenUserInv (s : AuthState) : Prop := s.token = none → s.user = none

/-- Operations that never pair an absent token with a present user in a
`setAuth` call. -/
def okOp : Op → Bool
  | Op.setAuth none (some _) => false
  | _ => true

lemma tokenUserInv_applyOp (b : String) (p : AuthState × Storage) (op : Op)
    (hok : okOp op = true) (h : tokenUserInv p.1) :
    tokenUserInv (applyOp b p op).1 := by
  obtain ⟨s, σ⟩ := p
  cases op with
  | setAuth t u =>
    cases t with
    | none =>
      cases u with
      | none => intro _; rfl
      | some _ => simp [okOp] at hok
    | some t' => intro hc; simp [applyOp, setAuth] at hc
  | logout => intro _; rfl
  | effect r =>
    cases hs : s.token with
    | none =>
      intro _
      simp only [applyOp, fetchUserEffect, hs]
      exact h hs
    | some t' =>
      by_cases ht : t' = ""
      · intro hc
        simp [applyOp, fetchUserEffect, hs, ht] at hc
      · cases r with
        | success u =>
          intro hc
          simp [applyOp, fetchUserEffect, hs, ht] at hc
        | failure =>
          intro _
          simp [applyOp, fetchUserEffect, hs, ht]

lemma tokenUserInv_foldl (b : String) (ops : List Op) (p : AuthState × Storage)
    (hops : ∀ op ∈ ops, okOp op = true) (h : tokenUserInv p.1) :
    tokenUserInv (ops.foldl (applyOp b) p).1 := by
  induction ops generalizing p with
  | nil => exact h
  | cons o rest ih =>
    simp only [List.foldl_cons]
    exact ih _ (fun op hop => hops op (List.mem_cons_of_mem _ hop))
      (tokenUserInv_applyOp b p o (hops o (List.mem_cons_self _ _)) h)

/-- The storage key mirrors the in-memory token exactly. -/
def mirrorInv (p : AuthState × Storage) : Prop := p.2 tokenKey = p.1.token

/-- Operations whose `setAuth` calls always carry a present token. -/
def okTokenOp : Op → Bool
  | Op.setAuth none _ => false
  | _ => true

lemma mirrorInv_applyOp (b : String) (p : AuthState × Storage) (op : Op)
    (hok : okTokenOp op = true) (h : mirrorInv p) :
    mirrorInv (applyOp b p op) := by
  obtain ⟨s, σ⟩ := p
  cases op with
  | setAuth t u =>
    cases t with
    | none => simp [okTokenOp] at hok
    | some t' => simp [mirrorInv, applyOp, setAuth, setItem, jsString]
  | logout => simp [mirrorInv, applyOp, logout, removeItem]
  | effect r =>
    cases hs : s.token with
    | none => simpa [mirrorInv, applyOp, fetchUserEffect, hs] using h
    | some t' =>
      by_cases ht : t' = ""
      · simpa [mirrorInv, applyOp, fetchUserEffect, hs, ht] using h
      · cases r with
        | success u => simpa [mirrorInv, applyOp, fetchUserEffect, hs, ht] using h
        | failure => simp [mirrorInv, applyOp, fetchUserEffect, hs, ht, removeItem]

lemma mirrorInv_foldl (b : String) (ops : List Op) (p : AuthState × Storage)
    (hops : ∀ op ∈ ops, okTokenOp op = true) (h : mirrorInv p) :
    mirrorInv (ops.foldl (applyOp b) p) := by
  induction ops generalizing p with
  | nil => exact h
  | cons o rest ih =>
    simp only [List.foldl_cons]
    exact ih _ (fun op hop => hops op (List.mem_cons_of_mem _ hop))
      (mirrorInv_applyOp b p o (hops o (List.mem_cons_self _ _)) h)

lemma applyOp_frame (b : String) (p : AuthState × Storage) (op : Op)
    (k : String) (hk : k ≠ tokenKey) : (applyOp b p op).2 k = p.2 k := by
  obtain ⟨s, σ⟩ := p
  cases op with
  | setAuth t u => simp [applyOp, setAuth, setItem, hk]
  | logout => simp [applyOp, logout, removeItem, hk]
  | effect r =>
    cases hs : s.token with
    | none => simp [applyOp, fetchUserEffect, hs]
    | some t' =>
      by_cases ht : t' = ""
      · simp [applyOp, fetchUserEffect, hs, ht]
      · cases r with
        | success u => simp [applyOp, fetchUserEffect, hs, ht]
        | failure => simp [applyOp, fetchUserEffect, hs, ht, removeItem, hk]

lemma foldl_frame (b : String) (ops : List Op) (p : AuthState × Storage)
    (k : String) (hk : k ≠ tokenKey) :
    (ops.foldl (applyOp b) p).2 k = p.2 k := by
  induction ops generalizing p with
  | nil => rfl
  | cons o rest ih => simp only [List.foldl_cons]; rw [ih, applyOp_frame b p o k hk]

lemma applyOp_state_congr (b : String) (p q : AuthState × Storage) (op : Op)
    (h : p.1 = q.1) : (applyOp b p op).1 = (applyOp b q op).1 := by
  obtain ⟨s, σ⟩ := p
  obtain ⟨s', σ'⟩ := q
  simp only at h
  subst h
  cases op with
  | setAuth t u => rfl
  | logout => rfl
  | effect r =>
    cases hs : s.token with
    | none => simp [applyOp, fetchUserEffect, hs]
    | some t' =>
      by_cases ht : t' = ""
      · simp [applyOp, fetchUserEffect, hs, ht]
      · cases r with
        | success u => simp [applyOp, fetchUserEffect, hs, ht]
        | failure => simp [applyOp, fetchUserEffect, hs, ht]

lemma foldl_state_congr (b : String) (ops : List Op) (p q : AuthState × Storage)
    (h : p.1 = q.1) : (ops.foldl (applyOp b) p).1 = (ops.foldl (applyOp b) q).1 := by
  induction ops generalizing p q with
  | nil => exact h
  | cons o rest ih =>
    simp only [List.foldl_cons]
    exact ih _ _ (applyOp_state_congr b p q o h)

/-! ### The Auth page (`src/frontend/src/pages/Auth.js`) -/

/-- The `signin` form state. -/
structure SigninForm where
  email : String
  password : String
deriving DecidableEq, Repr

/-- The `signup` form state. -/
structure SignupForm where
  name : String
  email : String
  password : String
  confirm : String
  role : String
deriving DecidableEq, Repr

/-- The `data` object of an axios error response; may carry a `detail`. -/
structure ErrData where
  detail : Option String
deriving DecidableEq, Repr

/-- The `response` object of an axios error; its `data` may be absent. -/
structure ErrResponse where
  data : Option ErrData
deriving DecidableEq, Repr

/-- An axios error: the `response` is absent on network failures. -/
structure AxiosError where
  response : Option ErrResponse
deriving DecidableEq, Repr

/-- The optional chain `err.response?.data?.detail`. -/
def errDetail (e : AxiosError) : Option String :=
  match e.response with
  | none => none
  | some r =>
    match r.data with
    | none => none
    | some d => d.detail

/-- JS `v || dflt` for a nullable string `v`: the default is taken when the
value is absent or the empty string (the only falsy string). -/
def orFalsy (v : Option String) (dflt : String) : String :=
  match v with
  | none => dflt
  | some s => if s = "" then dflt else s

/-- The body of a successful `POST /api/auth/login` or
`POST /api/auth/register` response: `res.data.token` and `res.data.user`. -/
structure AuthResp where
  token : Option String
  user : User
deriving DecidableEq, Repr

/-- Outcome of the awaited axios POST. -/
inductive PostResult where
  | ok (resp : AuthResp)
  | err (e : AxiosError)
deriving DecidableEq, Repr

/-- A POST request with its JSON body as an ordered field list. -/
structure PostRequest where
  url : String
  body : List (String × String)
deriving DecidableEq, Repr

/-- Everything a submit handler produces: the requests it sent, the toasts
it showed, its `setAuth` calls and the routes it navigated to. -/
structure HandlerOut where
  requests : List PostRequest
  toasts : List Toast
  setAuthCalls : List (Option String × Option User)
  navigations : List String
deriving DecidableEq, Repr

/-- `handleSignIn`: validates that both fields are non-empty (JS truthiness),
POSTs the whole `signin` object to `/api/auth/login`, and on success calls
`setAuth(res.data.token, res.data.user)` and navigates to
`/<role>-dashboard`; on error it toasts
`err.response?.data?.detail || 'Login failed'`. -/
def handleSignIn (b : String) (f : SigninForm) (result : PostResult) : HandlerOut :=
  if f.email = "" || f.password = "" then
    { requests := [], toasts := [Toast.error "Fill all fields"],
      setAuthCalls := [], navigations := [] }
  else
    let req : PostRequest :=
      { url := API b ++ "/auth/login",
        body := [("email", f.email), ("password", f.password)] }
    match result with
    | PostResult.ok resp =>
      { requests := [req],
        toasts := [Toast.success "Welcome back!"],
        setAuthCalls := [(resp.token, some resp.user)],
        navigations := ["/" ++ resp.user.role ++ "-dashboard"] }
    | PostResult.err e =>
      { requests := [req],
        toasts := [Toast.error (orFalsy (errDetail e) "Login failed")],
        setAuthCalls := [], navigations := [] }

/-- `handleSignUp`: validates that name, email and password are non-empty
and that password equals confirm, POSTs `{name, email, password, role}` to
`/api/auth/register`, and on success calls `setAuth` and navigates to
`/select-role`; on error it toasts
`err.response?.data?.detail || 'Registration failed'`. -/
def handleSignUp (b : String) (f : SignupForm) (result : PostResult) : HandlerOut :=
  if f.name = "" || f.email = "" || f.password = "" then
    { requests := [], toasts := [Toast.error "Fill all fields"],
      setAuthCalls := [], navigations := [] }
  else if f.password ≠ f.confirm then
    { requests := [], toasts := [Toast.error "Passwords do not match"],
      setAuthCalls := [], navigations := [] }
  else
    let req : PostRequest :=
      { url := API b ++ "/auth/register",
        body := [("name", f.name), ("email", f.email),
                 ("password", f.password), ("role", f.role)] }
    match result with
    | PostResult.ok resp =>
      { requests := [req],
        toasts := [Toast.success "Account created!"],
        setAuthCalls := [(resp.token, some resp.user)],
        navigations := ["/select-role"] }
    | PostResult.err e =>
      { requests := [req],
        toasts := [Toast.error (orFalsy (errDetail e) "Registration failed")],
        setAuthCalls := [], navigations := [] }

/-! ### The map component (`MapComponent`, Leaflet wrapper) -/

/-- A latitude/longitude pair; the component only passes coordinates
through, so the numeric representation is immaterial. -/
structure LatLng where
  lat : Rat
  lng : Rat
deriving DecidableEq, Repr

/-- A `divIcon` built by `createCustomIcon`; identified by its colour. -/
structure Icon where
  color : String
deriving DecidableEq, Repr

/-- `createCustomIcon(color)`. -/
def createCustomIcon (color : String) : Icon := { color := color }

/-- Forest green icon for NGOs. -/
def ngoIcon : Icon := createCustomIcon "#1A4D2E"

/-- Harvest orange icon for donors. -/
def donorIcon : Icon := createCustomIcon "#E07A5F"

/-- Stone grey icon for any other marker type. -/
def defaultIcon : Icon := createCustomIcon "#4A4A4A"

/-- One entry of the `markers` prop; `position`, `type` and `title` may each
be absent. -/
structure MarkerData where
  position : Option LatLng
  type : Option String
  title : Option String
deriving DecidableEq, Repr

/-- The `switch (markerData.type)` choosing an icon. -/
def iconFor (t : Option String) : Icon :=
  match t with
  | some "ngo" => ngoIcon
  | some "donor" => donorIcon
  | _ => defaultIcon

/-- A Leaflet marker added to the map: its position, icon, and bound popup
HTML if any. -/
structure RenderedMarker where
  pos : LatLng
  icon : Icon
  popup : Option String
deriving DecidableEq, Repr

/-- The body of `markers.forEach` for one entry: skipped when `position` is
absent (JS falsy), otherwise an `L.marker` with the icon for its type, and
a popup bound only when `title` is truthy (present and non-empty). -/
def renderMarker (m : MarkerData) : Option RenderedMarker :=
  match m.position with
  | none => none
  | some p =>
    some { pos := p, icon := iconFor m.type,
           popup :=
             match m.title with
             | none => none
             | some t =>
               if t = "" then none
               else some ("<strong>" ++ t ++ "</strong>") }

/-- An imperative action performed on the Leaflet map by the marker
effect. -/
inductive MapAction where
  | removeMarker (m : RenderedMarker)
  | addMarker (m : RenderedMarker)
deriving DecidableEq, Repr

/-- The `markers.forEach` loop: builds the new `markersRef` contents and the
add actions, in list order. -/
def addLoop : List MarkerData → List RenderedMarker × List MapAction
  | [] => ([], [])
  | m :: rest =>
    match renderMarker m with
    | none => addLoop rest
    | some r =>
      let (rs, acts) := addLoop rest
      (r :: rs, MapAction.addMarker r :: acts)

/-- The marker-update effect, run whenever the `markers` prop changes: it
returns unchanged if the map instance is absent; otherwise it removes every
previously rendered marker, resets `markersRef` to empty, then runs the add
loop.  Result: the new `markersRef` contents and the action trace. -/
def updateMarkers (mapInit : Bool) (rendered : List RenderedMarker)
    (markers : List MarkerData) : List RenderedMarker × List MapAction :=
  if mapInit then
    let removeActs := rendered.map MapAction.removeMarker
    let (rs, addActs) := addLoop markers
    (rs, removeActs ++ addActs)
  else (rendered, [])

lemma addLoop_eq (ms : List MarkerData) :
    addLoop ms = (ms.filterMap renderMarker,
      (ms.filterMap renderMarker).map MapAction.addMarker) := by
  induction ms with
  | nil => rfl
  | cons m rest ih =>
    cases hr : renderMarker m with
    | none => simp [addLoop, hr, ih, List.filterMap_cons]
    | some r => simp [addLoop, hr, ih, List.filterMap_cons]

/-! ### Sample values for concrete evaluations -/

/-- A sample user. -/
def u0 : User := { role := "donor" }

/-- The empty storage. -/
def σ0 : Storage := fun _ => none

/-- A storage differing from `σ0` only away from the token key. -/
def σ1 : Storage := fun k => if k = "unrelated_key" then some "x" else none

/-- A filled-in sign-in form. -/
def f0 : SigninForm := ⟨"a@b.c", "pw"⟩

/-- A sign-in form with an empty email. -/
def fBad : SigninForm := ⟨"", "pw"⟩

/-- A filled-in, consistent sign-up form. -/
def g0 : SignupForm := ⟨"n", "a@b.c", "pw", "pw", "ngo"⟩

/-- A sign-up form with an empty name and mismatched passwords. -/
def gBad : SignupForm := ⟨"", "e", "a", "b", "donor"⟩

/-- A network error without a response object. -/
def e0 : AxiosError := ⟨none⟩

/-- A successful auth response. -/
def resp0 : AuthResp := ⟨some "tok", u0⟩

/-! ### Claims -/

/-- Claim C1, counterexample: `setAuth` is a public auth operation and may be
called with an absent token and a present user (e.g. when a login response
carries a `user` but no `token`); the resulting reachable state has
`token = null` but `user ≠ null`, refuting the claim as stated. -/
theorem C1_counterexample :
    (runOps "" σ0 [Op.setAuth none (some u0)]).1.token = none ∧
    (runOps "" σ0 [Op.setAuth none (some u0)]).1.user = some u0 :=
  ⟨rfl, rfl⟩

/-- Claim C1 (amended): in every session state reachable through the public
auth operations, provided every `setAuth` call that passes an absent token
also passes an absent user, token absent implies user absent.  (Initial
load, `logout` and both profile-fetch outcomes preserve the invariant
unconditionally; a `setAuth(null, user)` call is the only way to break it.) -/
theorem C1_token_absent_user_absent (b : String) (σₛ : Storage) (ops : List Op)
    (hops : ∀ op ∈ ops, okOp op = true) :
    (runOps b σₛ ops).1.token = none → (runOps b σₛ ops).1.user = none :=
  tokenUserInv_foldl b ops (initState σₛ, σₛ) hops (fun _ => rfl)

/-- Claim C1, witness: a concrete operation sequence satisfying the side
condition, evaluated from the empty storage. -/
theorem C1_token_absent_user_absent_witness :
    (∀ op ∈ ([Op.setAuth (some "tok") (some u0), Op.logout] : List Op),
       okOp op = true) ∧
    ((runOps "" σ0 [Op.setAuth (some "tok") (some u0), Op.logout]).1.token = none →
      (runOps "" σ0 [Op.setAuth (some "tok") (some u0), Op.logout]).1.user = none) :=
  ⟨by decide, C1_token_absent_user_absent "" σ0
    [Op.setAuth (some "tok") (some u0), Op.logout] (by decide)⟩

/-- Claim C2: whenever the profile-fetch effect actually issued a request
(which requires a present, non-empty token) and that request failed, the
session is cleared: the stored token key is removed, token and user become
`null`, `loading` becomes `false`, and no toast is shown. -/
theorem C2_failed_fetch_clears_session (b : String) (s : AuthState) (σ : Storage)
    (hreq : (fetchUserEffect b s σ FetchResult.failure).requests ≠ []) :
    (fetchUserEffect b s σ FetchResult.failure).storage tokenKey = none ∧
    (fetchUserEffect b s σ FetchResult.failure).state.token = none ∧
    (fetchUserEffect b s σ FetchResult.failure).state.user = none ∧
    (fetchUserEffect b s σ FetchResult.failure).state.loading = false ∧
    (fetchUserEffect b s σ FetchResult.failure).toasts = [] := by
  cases hs : s.token with
  | none => simp [fetchUserEffect, hs] at hreq
  | some t =>
    by_cases ht : t = ""
    · simp [fetchUserEffect, hs, ht] at hreq
    · simp [fetchUserEffect, hs, ht, removeItem]

/-- Claim C2, witness: a signed-in state with a stored token whose profile
fetch fails. -/
theorem C2_failed_fetch_clears_session_witness :
    ((fetchUserEffect "" { user := some u0, token := some "tok", loading := false }
        σ1 FetchResult.failure).requests ≠ []) ∧
    ((fetchUserEffect "" { user := some u0, token := some "tok", loading := false }
        σ1 FetchResult.failure).storage tokenKey = none ∧
     (fetchUserEffect "" { user := some u0, token := some "tok", loading := false }
        σ1 FetchResult.failure).state.token = none ∧
     (fetchUserEffect "" { user := some u0, token := some "tok", loading := false }
        σ1 FetchResult.failure).state.user = none ∧
     (fetchUserEffect "" { user := some u0, token := some "tok", loading := false }
        σ1 FetchResult.failure).state.loading = false ∧
     (fetchUserEffect "" { user := some u0, token := some "tok", loading := false }
        σ1 FetchResult.failure).toasts = []) :=
  ⟨by decide, C2_failed_fetch_clears_session ""
    { user := some u0, token := some "tok", loading := false } σ1 (by decide)⟩

/-- Claim C3, counterexample: `setAuth` called with an absent token stores
the JS coercion string `"null"` under the token key (``localStorage.setItem``
stringifies its argument), so the key is present while the in-memory token
is `null`, refuting "present if and only if the in-memory token is
non-null". -/
theorem C3_counterexample :
    (runOps "" σ0 [Op.setAuth none none]).1.token = none ∧
    (runOps "" σ0 [Op.setAuth none none]).2 tokenKey = some "null" :=
  ⟨rfl, by decide⟩

/-- Claim C3 (amended): (i) after any sequence of auth operations in which
every `setAuth` call carries a present token, the stored token key equals
exactly the in-memory token (in particular it is present iff the token is
non-null); (ii) every operation leaves all other storage keys untouched;
(iii) the operations read storage only through the token key: two storages
agreeing on that key produce identical session states. -/
theorem C3_storage_mirror (b : String) (σₛ : Storage) (ops : List Op) :
    ((∀ op ∈ ops, okTokenOp op = true) →
       (runOps b σₛ ops).2 tokenKey = (runOps b σₛ ops).1.token) ∧
    (∀ k, k ≠ tokenKey → (runOps b σₛ ops).2 k = σₛ k) ∧
    (∀ σₜ : Storage, σₜ tokenKey = σₛ tokenKey →
       (runOps b σₜ ops).1 = (runOps b σₛ ops).1) := by
  refine ⟨fun hops => ?_, fun k hk => ?_, fun σₜ h => ?_⟩
  · exact mirrorInv_foldl b ops _ hops rfl
  · exact foldl_frame b ops _ k hk
  · exact foldl_state_congr b ops _ _ (by simp [initState, getItem, h])

/-- Claim C3, witness: a login followed by a logout, checked for the mirror
property, the frame property at an unrelated key, and storage-read
independence. -/
theorem C3_storage_mirror_witness :
    ((runOps "" σ0 [Op.setAuth (some "tok") (some u0), Op.logout]).2 tokenKey =
       (runOps "" σ0 [Op.setAuth (some "tok") (some u0), Op.logout]).1.token) ∧
    ((runOps "" σ0 [Op.setAuth (some "tok") (some u0), Op.logout]).2 "unrelated_key" =
       σ0 "unrelated_key") ∧
    ((runOps "" σ1 [Op.setAuth (some "tok") (some u0), Op.logout]).1 =
       (runOps "" σ0 [Op.setAuth (some "tok") (some u0), Op.logout]).1) :=
  ⟨(C3_storage_mirror "" σ0 [Op.setAuth (some "tok") (some u0), Op.logout]).1 (by decide),
   (C3_storage_mirror "" σ0 [Op.setAuth (some "tok") (some u0), Op.logout]).2.1
     "unrelated_key" (by decide),
   (C3_storage_mirror "" σ0 [Op.setAuth (some "tok") (some u0), Op.logout]).2.2
     σ1 (by decide)⟩

/-- Claim C4, counterexample: the error toast uses JS `||`, which also takes
the generic fallback when the server-provided `detail` is present but is the
empty string: with `detail = ""`, the toast text is `'Login failed'` rather
than the provided detail, refuting "the server-provided detail field when
present". -/
theorem C4_counterexample :
    errDetail { response := some { data := some { detail := some "" } } } = some "" ∧
    (handleSignIn "" { email := "a@b.c", password := "pw" }
        (PostResult.err { response := some { data := some { detail := some "" } } })).toasts =
      [Toast.error "Login failed"] ∧
    Toast.error "Login failed" ≠ Toast.error "" :=
  ⟨rfl, by decide, by decide⟩

/-- Claim C4 (amended): for every failed login or registration request
(submitted from a validation-passing form), exactly one error toast is
shown whose text is the server-provided `detail` when present and
non-empty, and otherwise the generic `'Login failed'` / `'Registration
failed'`; no `setAuth` call and no navigation happens, so the session state
is left unchanged. -/
theorem C4_failed_auth_toast (b : String) (f : SigninForm) (g : SignupForm)
    (e : AxiosError) (hf1 : f.email ≠ "") (hf2 : f.password ≠ "")
    (hg1 : g.name ≠ "") (hg2 : g.email ≠ "") (hg3 : g.password ≠ "")
    (hg4 : g.password = g.confirm) :
    ((∀ d, errDetail e = some d → d ≠ "" →
        (handleSignIn b f (PostResult.err e)).toasts = [Toast.error d]) ∧
     ((errDetail e = none ∨ errDetail e = some "") →
        (handleSignIn b f (PostResult.err e)).toasts = [Toast.error "Login failed"]) ∧
     (handleSignIn b f (PostResult.err e)).setAuthCalls = [] ∧
     (handleSignIn b f (PostResult.err e)).navigations = []) ∧
    ((∀ d, errDetail e = some d → d ≠ "" →
        (handleSignUp b g (PostResult.err e)).toasts = [Toast.error d]) ∧
     ((errDetail e = none ∨ errDetail e = some "") →
        (handleSignUp b g (PostResult.err e)).toasts = [Toast.error "Registration failed"]) ∧
     (handleSignUp b g (PostResult.err e)).setAuthCalls = [] ∧
     (handleSignUp b g (PostResult.err e)).navigations = []) := by
  have hc : g.confirm ≠ "" := hg4 ▸ hg3
  refine ⟨⟨fun d hd hne => ?_, fun hd => ?_, ?_, ?_⟩,
          ⟨fun d hd hne => ?_, fun hd => ?_, ?_, ?_⟩⟩
  · simp [handleSignIn, hf1, hf2, orFalsy, hd, hne]
  · rcases hd with hd | hd <;> simp [handleSignIn, hf1, hf2, orFalsy, hd]
  · simp [handleSignIn, hf1, hf2]
  · simp [handleSignIn, hf1, hf2]
  · simp [handleSignUp, hg1, hg2, hg3, hg4, hc, orFalsy, hd, hne]
  · rcases hd with hd | hd <;> simp [handleSignUp, hg1, hg2, hg3, hg4, hc, orFalsy, hd]
  · simp [handleSignUp, hg1, hg2, hg3, hg4, hc]
  · simp [handleSignUp, hg1, hg2, hg3, hg4, hc]

/-- Claim C4, witness: a network error without a response object, on a
filled-in sign-in form and a consistent sign-up form. -/
theorem C4_failed_auth_toast_witness :
    ((∀ d, errDetail e0 = some d → d ≠ "" →
        (handleSignIn "" f0 (PostResult.err e0)).toasts = [Toast.error d]) ∧
     ((errDetail e0 = none ∨ errDetail e0 = some "") →
        (handleSignIn "" f0 (PostResult.err e0)).toasts = [Toast.error "Login failed"]) ∧
     (handleSignIn "" f0 (PostResult.err e0)).setAuthCalls = [] ∧
     (handleSignIn "" f0 (PostResult.err e0)).navigations = []) ∧
    ((∀ d, errDetail e0 = some d → d ≠ "" →
        (handleSignUp "" g0 (PostResult.err e0)).toasts = [Toast.error d]) ∧
     ((errDetail e0 = none ∨ errDetail e0 = some "") →
        (handleSignUp "" g0 (PostResult.err e0)).toasts = [Toast.error "Registration failed"]) ∧
     (handleSignUp "" g0 (PostResult.err e0)).setAuthCalls = [] ∧
     (handleSignUp "" g0 (PostResult.err e0)).navigations = []) :=
  C4_failed_auth_toast "" f0 g0 e0
    (by decide) (by decide) (by decide) (by decide) (by decide) rfl

/-- Claim C5: client-side validation gates both HTTP calls: a sign-in with
an empty email or password issues no request, shows the error toast and
calls no `setAuth`; a sign-up with an empty name, email or password, or
with a password differing from confirm, issues no request, calls no
`setAuth` and shows an error toast. -/
theorem C5_validation_gates (b : String) (f : SigninForm) (g : SignupForm)
    (r : PostResult) :
    ((f.email = "" ∨ f.password = "") →
       (handleSignIn b f r).requests = [] ∧
       (handleSignIn b f r).toasts = [Toast.error "Fill all fields"] ∧
       (handleSignIn b f r).setAuthCalls = []) ∧
    ((g.name = "" ∨ g.email = "" ∨ g.password = "") →
       (handleSignUp b g r).requests = [] ∧
       (handleSignUp b g r).toasts = [Toast.error "Fill all fields"] ∧
       (handleSignUp b g r).setAuthCalls = []) ∧
    (g.password ≠ g.confirm →
       (handleSignUp b g r).requests = [] ∧
       (handleSignUp b g r).setAuthCalls = [] ∧
       ((handleSignUp b g r).toasts = [Toast.error "Fill all fields"] ∨
        (handleSignUp b g r).toasts = [Toast.error "Passwords do not match"])) := by
  refine ⟨fun h => ?_, fun h => ?_, fun hne => ?_⟩
  · rcases h with h | h <;> simp [handleSignIn, h]
  · rcases h with h | h | h <;> simp [handleSignUp, h]
  · by_cases h1 : g.name = ""
    · simp [handleSignUp, h1]
    · by_cases h2 : g.email = ""
      · simp [handleSignUp, h2]
      · by_cases h3 : g.password = ""
        · simp [handleSignUp, h3]
        · simp [handleSignUp, h1, h2, h3, hne]

/-- Claim C5, witness: a sign-in form with an empty email, and a sign-up
form with an empty name and mismatched passwords. -/
theorem C5_validation_gates_witness :
    ((handleSignIn "" fBad (PostResult.err e0)).requests = [] ∧
     (handleSignIn "" fBad (PostResult.err e0)).toasts = [Toast.error "Fill all fields"] ∧
     (handleSignIn "" fBad (PostResult.err e0)).setAuthCalls = []) ∧
    ((handleSignUp "" gBad (PostResult.err e0)).requests = [] ∧
     (handleSignUp "" gBad (PostResult.err e0)).toasts = [Toast.error "Fill all fields"] ∧
     (handleSignUp "" gBad (PostResult.err e0)).setAuthCalls = []) ∧
    ((handleSignUp "" gBad (PostResult.err e0)).requests = [] ∧
     (handleSignUp "" gBad (PostResult.err e0)).setAuthCalls = [] ∧
     ((handleSignUp "" gBad (PostResult.err e0)).toasts = [Toast.error "Fill all fields"] ∨
      (handleSignUp "" gBad (PostResult.err e0)).toasts =
        [Toast.error "Passwords do not match"])) :=
  ⟨(C5_validation_gates "" fBad gBad (PostResult.err e0)).1 (Or.inl rfl),
   (C5_validation_gates "" fBad gBad (PostResult.err e0)).2.1 (Or.inl rfl),
   (C5_validation_gates "" fBad gBad (PostResult.err e0)).2.2 (by decide)⟩

/-- Claim C6: a sign-up submission that passes validation sends to
`/api/auth/register` exactly the body `{name, email, password, role}` taken
from the form state, and that body has no `confirm` field. -/
theorem C6_register_body (b : String) (g : SignupForm) (r : PostResult)
    (h1 : g.name ≠ "") (h2 : g.email ≠ "") (h3 : g.password ≠ "")
    (h4 : g.password = g.confirm) :
    (handleSignUp b g r).requests =
      [{ url := API b ++ "/auth/register",
         body := [("name", g.name), ("email", g.email),
                  ("password", g.password), ("role", g.role)] }] ∧
    List.lookup "confirm"
      [("name", g.name), ("email", g.email),
       ("password", g.password), ("role", g.role)] = none := by
  have hc : g.confirm ≠ "" := h4 ▸ h3
  constructor
  · cases r with
    | ok resp => simp [handleSignUp, h1, h2, h3, h4, hc]
    | err e => simp [handleSignUp, h1, h2, h3, h4, hc]
  · rfl

/-- Claim C6, witness: a concrete valid sign-up form. -/
theorem C6_register_body_witness :
    (handleSignUp "" g0 (PostResult.ok resp0)).requests =
      [{ url := API "" ++ "/auth/register",
         body := [("name", g0.name), ("email", g0.email),
                  ("password", g0.password), ("role", g0.role)] }] ∧
    List.lookup "confirm"
      [("name", g0.name), ("email", g0.email),
       ("password", g0.password), ("role", g0.role)] = none :=
  C6_register_body "" g0 (PostResult.ok resp0)
    (by decide) (by decide) (by decide) rfl

/-- Claim C7, counterexample: the effect guards with JS `!token`, which is
also true for the empty string, so when the token changes to `""` — a
non-null value — no `GET /api/auth/me` request is issued at all, refuting
"exactly one request". -/
theorem C7_counterexample :
    ({ user := none, token := some "", loading := true } : AuthState).token ≠ none ∧
    (fetchUserEffect "" { user := none, token := some "", loading := true }
      σ0 (FetchResult.success u0)).requests = [] :=
  ⟨by decide, by decide⟩

/-- Claim C7 (amended): whenever the token changes to a non-null, non-empty
value `t`, exactly one `GET /api/auth/me` request is issued (whatever the
outcome) carrying `Authorization: Bearer t`, and on success the user is set
to the response body while the token, the whole persistent storage and in
particular its stored token copy are unchanged, and loading becomes
false. -/
theorem C7_token_change_fetch (b : String) (s : AuthState) (σ : Storage)
    (t : String) (u : User) (ht : s.token = some t) (hne : t ≠ "") :
    (fetchUserEffect b s σ (FetchResult.success u)).requests =
      [{ url := API b ++ "/auth/me", authHeader := some ("Bearer " ++ t) }] ∧
    (fetchUserEffect b s σ FetchResult.failure).requests =
      [{ url := API b ++ "/auth/me", authHeader := some ("Bearer " ++ t) }] ∧
    (fetchUserEffect b s σ (FetchResult.success u)).state.user = some u ∧
    (fetchUserEffect b s σ (FetchResult.success u)).state.token = some t ∧
    (fetchUserEffect b s σ (FetchResult.success u)).state.loading = false ∧
    (∀ k, (fetchUserEffect b s σ (FetchResult.success u)).storage k = σ k) := by
  simp [fetchUserEffect, ht, hne]

/-- Claim C7, witness: a loading state holding the token `"tok"`, fetched
successfully. -/
theorem C7_token_change_fetch_witness :
    (fetchUserEffect "" { user := none, token := some "tok", loading := true }
        σ1 (FetchResult.success u0)).requests =
      [{ url := API "" ++ "/auth/me", authHeader := some ("Bearer " ++ "tok") }] ∧
    (fetchUserEffect "" { user := none, token := some "tok", loading := true }
        σ1 FetchResult.failure).requests =
      [{ url := API "" ++ "/auth/me", authHeader := some ("Bearer " ++ "tok") }] ∧
    (fetchUserEffect "" { user := none, token := some "tok", loading := true }
        σ1 (FetchResult.success u0)).state.user = some u0 ∧
    (fetchUserEffect "" { user := none, token := some "tok", loading := true }
        σ1 (FetchResult.success u0)).state.token = some "tok" ∧
    (fetchUserEffect "" { user := none, token := some "tok", loading := true }
        σ1 (FetchResult.success u0)).state.loading = false ∧
    (∀ k, (fetchUserEffect "" { user := none, token := some "tok", loading := true }
        σ1 (FetchResult.success u0)).storage k = σ1 k) :=
  C7_token_change_fetch "" { user := none, token := some "tok", loading := true }
    σ1 "tok" u0 rfl (by decide)

/-- Claim C8: a successful login calls `setAuth(res.data.token,
res.data.user)` and navigates to `/<role>-dashboard`; a successful
registration calls `setAuth` the same way and navigates to
`/select-role`. -/
theorem C8_success_redirect (b : String) (f : SigninForm) (g : SignupForm)
    (resp : AuthResp) (hf1 : f.email ≠ "") (hf2 : f.password ≠ "")
    (hg1 : g.name ≠ "") (hg2 : g.email ≠ "") (hg3 : g.password ≠ "")
    (hg4 : g.password = g.confirm) :
    ((handleSignIn b f (PostResult.ok resp)).setAuthCalls =
       [(resp.token, some resp.user)] ∧
     (handleSignIn b f (PostResult.ok resp)).navigations =
       ["/" ++ resp.user.role ++ "-dashboard"]) ∧
    ((handleSignUp b g (PostResult.ok resp)).setAuthCalls =
       [(resp.token, some resp.user)] ∧
     (handleSignUp b g (PostResult.ok resp)).navigations = ["/select-role"]) := by
  have hc : g.confirm ≠ "" := hg4 ▸ hg3
  refine ⟨⟨?_, ?_⟩, ⟨?_, ?_⟩⟩ <;>
    simp [handleSignIn, handleSignUp, hf1, hf2, hg1, hg2, hg3, hg4, hc]

/-- Claim C8, witness: concrete valid forms and a concrete response. -/
theorem C8_success_redirect_witness :
    ((handleSignIn "" f0 (PostResult.ok resp0)).setAuthCalls =
       [(resp0.token, some resp0.user)] ∧
     (handleSignIn "" f0 (PostResult.ok resp0)).navigations =
       ["/" ++ resp0.user.role ++ "-dashboard"]) ∧
    ((handleSignUp "" g0 (PostResult.ok resp0)).setAuthCalls =
       [(resp0.token, some resp0.user)] ∧
     (handleSignUp "" g0 (PostResult.ok resp0)).navigations = ["/select-role"]) :=
  C8_success_redirect "" f0 g0 resp0
    (by decide) (by decide) (by decide) (by decide) (by decide) rfl

/-- Claim C9: once the map instance exists, a change of the `markers` prop
first removes every previously rendered marker and only then adds the new
ones (the action trace is all removals followed by all additions), and the
resulting rendered markers are exactly, in input order, the entries of the
new list that have a position; entries lacking a position produce
nothing. -/
theorem C9_marker_rerender (mapInit : Bool) (rendered : List RenderedMarker)
    (markers : List MarkerData) (h : mapInit = true) :
    (updateMarkers mapInit rendered markers).1 = markers.filterMap renderMarker ∧
    (updateMarkers mapInit rendered markers).2 =
      rendered.map MapAction.removeMarker ++
        (markers.filterMap renderMarker).map MapAction.addMarker ∧
    ∀ m ∈ markers, m.position = none → renderMarker m = none := by
  subst h
  refine ⟨?_, ?_, ?_⟩
  · simp [updateMarkers, addLoop_eq]
  · simp [updateMarkers, addLoop_eq]
  · intro m _ hm
    simp [renderMarker, hm]

/-- Claim C9, witness: an old rendered marker, and a new list with one
positioned NGO entry followed by one entry without a position. -/
theorem C9_marker_rerender_witness :
    (updateMarkers true [⟨⟨1, 2⟩, ngoIcon, none⟩]
        [⟨some ⟨3, 4⟩, some "ngo", some "Shelter"⟩, ⟨none, some "donor", none⟩]).1 =
      List.filterMap renderMarker
        [⟨some ⟨3, 4⟩, some "ngo", some "Shelter"⟩, ⟨none, some "donor", none⟩] ∧
    (updateMarkers true [⟨⟨1, 2⟩, ngoIcon, none⟩]
        [⟨some ⟨3, 4⟩, some "ngo", some "Shelter"⟩, ⟨none, some "donor", none⟩]).2 =
      List.map MapAction.removeMarker [⟨⟨1, 2⟩, ngoIcon, none⟩] ++
        List.map MapAction.addMarker (List.filterMap renderMarker
          [⟨some ⟨3, 4⟩, some "ngo", some "Shelter"⟩, ⟨none, some "donor", none⟩]) ∧
    ∀ m ∈ ([⟨some ⟨3, 4⟩, some "ngo", some "Shelter"⟩,
            ⟨none, some "donor", none⟩] : List MarkerData),
      m.position = none → renderMarker m = none :=
  C9_marker_rerender true [⟨⟨1, 2⟩, ngoIcon, none⟩]
    [⟨some ⟨3, 4⟩, some "ngo", some "Shelter"⟩, ⟨none, some "donor", none⟩] rfl

/-- Claim C10: with a null token the profile-fetch effect issues no request,
sets loading to false and touches neither the user, the token, nor storage;
in particular an app loaded from a storage without the token key reaches
the signed-out, non-loading state `{user: null, token: null, loading:
false}` without contacting the backend. -/
theorem C10_null_token_no_fetch (b : String) (s : AuthState) (σ : Storage)
    (r : FetchResult) (h : s.token = none) :
    (fetchUserEffect b s σ r).requests = [] ∧
    (fetchUserEffect b s σ r).state.loading = false ∧
    (fetchUserEffect b s σ r).state.user = s.user ∧
    (fetchUserEffect b s σ r).state.token = none ∧
    (∀ k, (fetchUserEffect b s σ r).storage k = σ k) ∧
    (∀ σₛ : Storage, σₛ tokenKey = none →
       (fetchUserEffect b (initState σₛ) σₛ r).state =
         { user := none, token := none, loading := false } ∧
       (fetchUserEffect b (initState σₛ) σₛ r).requests = []) := by
  refine ⟨by simp [fetchUserEffect, h], by simp [fetchUserEffect, h],
    by simp [fetchUserEffect, h], by simp [fetchUserEffect, h],
    fun k => by simp [fetchUserEffect, h], fun σₛ h₀ => ?_⟩
  have htok : (initState σₛ).token = none := h₀
  refine ⟨?_, by simp [fetchUserEffect, htok]⟩
  simp [fetchUserEffect, htok, initState, getItem, h₀]

/-- Claim C10, witness: the freshly loaded state over the empty storage. -/
theorem C10_null_token_no_fetch_witness :
    (fetchUserEffect "" (initState σ0) σ0 FetchResult.failure).requests = [] ∧
    (fetchUserEffect "" (initState σ0) σ0 FetchResult.failure).state.loading = false ∧
    (fetchUserEffect "" (initState σ0) σ0 FetchResult.failure).state.user =
      (initState σ0).user ∧
    (fetchUserEffect "" (initState σ0) σ0 FetchResult.failure).state.token = none ∧
    (∀ k, (fetchUserEffect "" (initState σ0) σ0 FetchResult.failure).storage k = σ0 k) ∧
    (∀ σₛ : Storage, σₛ tokenKey = none →
       (fetchUserEffect "" (initState σₛ) σₛ FetchResult.failure).state =
         { user := none, token := none, loading := false } ∧
       (fetchUserEffect "" (initState σₛ) σₛ FetchResult.failure).requests = []) :=
  C10_null_token_no_fetch "" (initState σ0) σ0 FetchResult.failure rfl

end SmartPlate
